import Mathlib

/-!
# Verification of the configuration model and loader of `eks-auto-cdk-gitops`

Shallow embedding of `cdk/config/enums.py`, `cdk/config/base_config.py` and
`cdk/config/loader.py`.  Pydantic models become Lean structures; pydantic
construction (keyword arguments, field-level constraints such as `ge=` and
`pattern=`, then `model_validator(mode='after')`) becomes an explicit
`construct` function returning `Except ValidationError _`, checking the
constraints in pydantic's order (declaration order of the fields, then the
model validator).  Python floats carry exact decimal values here (the code
only ever compares them), so they are embedded as rationals.  The YAML
environment file becomes a record of per-section records of `Option` fields:
`some v` means the key is present in the file with value `v`, `none` that it
is absent and pydantic's schema default applies.  The filesystem read by the
loader becomes an explicit map from environment name to the parsed file
content, `none` meaning the file does not exist.
-/

set_option autoImplicit false

/-! ## Enums (`cdk/config/enums.py`) -/

/-- The `EnvironmentName` enum: available environments. -/
inductive EnvironmentName where
  | dev
  | staging
  | prod
deriving DecidableEq

/-- The `EnvironmentName.value`: the string value of the enum member. -/
def EnvironmentName.value : EnvironmentName → String
  | .dev => "dev"
  | .staging => "staging"
  | .prod => "prod"

/-- Pydantic coercion of a string into the `EnvironmentName` enum:
succeeds exactly on the declared values. -/
def parseEnvironmentName (s : String) : Option EnvironmentName :=
  if s = "dev" then some .dev
  else if s = "staging" then some .staging
  else if s = "prod" then some .prod
  else none

/-- The `AwsRegion` enum: available AWS regions. -/
inductive AwsRegion where
  | EU_WEST_1
  | EU_WEST_2
  | EU_WEST_3
  | EU_CENTRAL_1
  | US_EAST_1
  | US_EAST_2
  | US_WEST_1
  | US_WEST_2
deriving DecidableEq

/-- The `AwsRegion.value`: the string value of the enum member. -/
def AwsRegion.value : AwsRegion → String
  | .EU_WEST_1 => "eu-west-1"
  | .EU_WEST_2 => "eu-west-2"
  | .EU_WEST_3 => "eu-west-3"
  | .EU_CENTRAL_1 => "eu-central-1"
  | .US_EAST_1 => "us-east-1"
  | .US_EAST_2 => "us-east-2"
  | .US_WEST_1 => "us-west-1"
  | .US_WEST_2 => "us-west-2"

/-- Pydantic coercion of a string into the `AwsRegion` enum. -/
def parseAwsRegion (s : String) : Option AwsRegion :=
  if s = "eu-west-1" then some .EU_WEST_1
  else if s = "eu-west-2" then some .EU_WEST_2
  else if s = "eu-west-3" then some .EU_WEST_3
  else if s = "eu-central-1" then some .EU_CENTRAL_1
  else if s = "us-east-1" then some .US_EAST_1
  else if s = "us-east-2" then some .US_EAST_2
  else if s = "us-west-1" then some .US_WEST_1
  else if s = "us-west-2" then some .US_WEST_2
  else none

/-! ## Validation errors

Pydantic raises a `ValidationError` either from a field-level constraint
(`ge=`, `pattern=`, missing required field, bad enum value), recorded here
with the offending field's name, or from a `model_validator` re-raising the
`ValueError` built by the validator, recorded here with the validator's
message string. -/

/-- A pydantic validation failure. -/
inductive ValidationError where
  /-- A field-level constraint failed on the named field. -/
  | fieldConstraint (field : String)
  /-- A `model_validator` raised `ValueError(msg)`. -/
  | valueError (msg : String)
deriving DecidableEq

/-! ## Config records (`cdk/config/base_config.py`) -/

/-- The `BaseConfig`: common fields of the aggregate. -/
structure BaseConfig where
  env_name : EnvironmentName
  project_name : String
deriving DecidableEq

/-- The `BaseConfig.env_name_str` property. -/
def BaseConfig.env_name_str (c : BaseConfig) : String :=
  EnvironmentName.value c.env_name

/-- The `BaseConfig.prefix` method (named `prefixed` here because `prefix` is a
Lean keyword): `f"{project_name}-{env_name_str}-{base}"`. -/
def BaseConfig.prefixed (c : BaseConfig) (base : String) : String :=
  c.project_name ++ "-" ++ BaseConfig.env_name_str c ++ "-" ++ base

/-- The `BaseConfig.tags` property: the standardized tag mapping, in the
insertion order of the Python dict literal. -/
def BaseConfig.tags (c : BaseConfig) : List (String × String) :=
  [("EnvName", BaseConfig.env_name_str c),
   ("ProjectName", c.project_name),
   ("ManagedBy", "CDK")]

/-- The `AwsConfig`: account and region. -/
structure AwsConfig where
  account : String
  region : AwsRegion
deriving DecidableEq

/-- The `VpcConfig`: VPC network configuration. -/
structure VpcConfig where
  cidr : String
  max_azs : Int
  reserved_azs : Int
  nat_gateways : Int
  automatic_subnet_creation : Bool
deriving DecidableEq

/-- The `DatabaseConfig`: RDS database configuration.  Capacities are Python
floats, embedded as rationals. -/
structure DatabaseConfig where
  snapshot_identifier : Option String
  backup_retention : Int
  instance_reader : Bool
  serverless_v2_min_capacity : ℚ
  serverless_v2_max_capacity : ℚ
  master_username : String
deriving DecidableEq

/-- The `BackendConfig`: ECS backend configuration.  `task_cpu` and
`task_memory` are annotated `str` in the source (defaults `"500m"` and
`"512Mi"`). -/
structure BackendConfig where
  task_cpu : String
  task_memory : String
  desired_count : Int
  certificate_arn : String
  container_env_vars : List (String × String)
  auto_scaling_min_capacity : Int
  auto_scaling_max_capacity : Int
  ecr_repository_name : String
  ecr_image_tag : String
deriving DecidableEq

/-- The `FrontendConfig`: CloudFront frontend configuration. -/
structure FrontendConfig where
  domain_name : String
  certificate_arn : String
  certificate_provider : String
deriving DecidableEq

/-- The `CICDFronendConfig` (source spelling): frontend CI/CD pipeline
configuration. -/
structure CICDFronendConfig where
  github_connection_arn : String
  github_owner : String
  github_frontend_repo : String
  github_frontend_branch : String
deriving DecidableEq

/-- The `CICDBackendConfig`: backend CI/CD pipeline configuration. -/
structure CICDBackendConfig where
  github_connection_arn : String
  github_owner : String
  github_backend_repo : String
  github_backend_branch : String
deriving DecidableEq

/-- The `DnsConfig`: DNS configuration. -/
structure DnsConfig where
  hosted_zone_id : String
  zone_name : String
  frontend_domain_name : String
  backend_domain_name : String
deriving DecidableEq

/-- The `InfrastructureConfig`: the aggregate, inheriting `BaseConfig`. -/
structure InfrastructureConfig extends BaseConfig where
  aws : AwsConfig
  vpc : VpcConfig
  database : DatabaseConfig
  backend : BackendConfig
  frontend : FrontendConfig
  cicd_fronend : CICDFronendConfig
  cicd_backend : CICDBackendConfig
  dns : DnsConfig
deriving DecidableEq

/-! ## ARN pattern matching

The source constrains four fields by the regular expressions

  `^arn:aws:acm:[a-z0-9-]+:\d{12}:certificate/[a-zA-Z0-9-]+$`
  `^arn:aws:codeconnections:[a-z0-9-]+:\d{12}:connection/[a-zA-Z0-9-]+$`

Both share the shape: a literal head `arn:aws:<provider>:`, a nonempty run
of `[a-z0-9-]`, a colon, exactly 12 digits, a colon, a literal
`<resource>/`, a nonempty run of `[a-zA-Z0-9-]`, end of string.  `matchArn`
is an executable matcher for that shape; `ArnShape` is the declarative
reading of the regular expression, and the two are proved equivalent
below. -/

/-- The region character class `[a-z0-9-]`. -/
def isRegionChar (c : Char) : Bool :=
  c.isLower || c.isDigit || c = '-'

/-- The resource character class `[a-zA-Z0-9-]`. -/
def isResourceChar (c : Char) : Bool :=
  c.isAlpha || c.isDigit || c = '-'

/-- Consume an exact literal from the front of the input. -/
def dropLit : List Char → List Char → Option (List Char)
  | [], s => some s
  | _ :: _, [] => none
  | l :: ls, c :: cs => if c = l then dropLit ls cs else none

/-- Consume exactly `n` digits from the front of the input. -/
def dropDigits : Nat → List Char → Option (List Char)
  | 0, s => some s
  | _ + 1, [] => none
  | n + 1, c :: cs => if c.isDigit then dropDigits n cs else none

/-- Consume a nonempty maximal run of characters satisfying `p`. -/
def dropClass1 (p : Char → Bool) : List Char → Option (List Char)
  | [] => none
  | c :: cs => if p c then some (cs.dropWhile p) else none

/-- Executable matcher for the common ARN shape: consume the literal head,
the region run, a colon, 12 digits, the literal resource segment, the
resource run; the whole input must be consumed. -/
def matchArn (provider resource : String) (s : String) : Bool :=
  decide ((((((dropLit ("arn:aws:" ++ provider ++ ":").data s.data).bind
    (dropClass1 isRegionChar)).bind
    (dropLit [':'])).bind
    (dropDigits 12)).bind
    (dropLit (':' :: (resource ++ "/").data))).bind
    (dropClass1 isResourceChar) = some [])

/-- Declarative reading of the ARN regular expressions: the string splits
into the literal head, a nonempty `[a-z0-9-]` region, a colon, 12 digits, a
colon, the literal resource segment, and a nonempty `[a-zA-Z0-9-]` tail. -/
def ArnShape (provider resource : String) (s : String) : Prop :=
  ∃ region acct res : List Char,
    s.data = ("arn:aws:" ++ provider ++ ":").data ++ region ++ [':'] ++ acct
      ++ (':' :: (resource ++ "/").data) ++ res ∧
    region ≠ [] ∧ (∀ c ∈ region, isRegionChar c = true) ∧
    acct.length = 12 ∧ (∀ c ∈ acct, c.isDigit = true) ∧
    res ≠ [] ∧ (∀ c ∈ res, isResourceChar c = true)

/-! ## Constructors with pydantic validation -/

/-- Substring containment on strings. -/
def containsStr (needle hay : String) : Prop :=
  ∃ l r : String, hay = l ++ needle ++ r

/-- The `ValueError` message of `DatabaseConfig.validate_capacity`. -/
def capacityMsg (minC maxC : ℚ) : String :=
  "serverless_v2_min_capacity (" ++ toString minC
    ++ ") must be less than serverless_v2_max_capacity ("
    ++ toString maxC ++ ")"

/-- Pydantic construction of `DatabaseConfig`: the field constraint
`ge=0.5` on `serverless_v2_min_capacity`, then the model validator
`validate_capacity` rejecting `min >= max`. -/
def DatabaseConfig.construct (snapshot_identifier : Option String)
    (backup_retention : Int) (instance_reader : Bool)
    (minC maxC : ℚ) (master_username : String) :
    Except ValidationError DatabaseConfig :=
  if minC < mkRat 1 2 then
    .error (.fieldConstraint "serverless_v2_min_capacity")
  else if minC ≥ maxC then
    .error (.valueError (capacityMsg minC maxC))
  else
    .ok ⟨snapshot_identifier, backup_retention, instance_reader,
      minC, maxC, master_username⟩

/-- The `ValueError` message of `BackendConfig.validate_auto_scaling`. -/
def autoScalingMsg (minC maxC : Int) : String :=
  "auto_scaling_min_capacity (" ++ toString minC
    ++ ") must be less than auto_scaling_max_capacity ("
    ++ toString maxC ++ ")"

/-- Pydantic construction of `BackendConfig`: field constraints in
declaration order (`pattern=` on `certificate_arn`, then `ge=1` on
`auto_scaling_min_capacity`), then the model validator
`validate_auto_scaling` rejecting `min >= max`. -/
def BackendConfig.construct (task_cpu task_memory : String)
    (desired_count : Int) (certificate_arn : String)
    (container_env_vars : List (String × String))
    (minC maxC : Int) (ecr_repository_name ecr_image_tag : String) :
    Except ValidationError BackendConfig :=
  if matchArn "acm" "certificate" certificate_arn = false then
    .error (.fieldConstraint "certificate_arn")
  else if minC < 1 then
    .error (.fieldConstraint "auto_scaling_min_capacity")
  else if minC ≥ maxC then
    .error (.valueError (autoScalingMsg minC maxC))
  else
    .ok ⟨task_cpu, task_memory, desired_count, certificate_arn,
      container_env_vars, minC, maxC, ecr_repository_name, ecr_image_tag⟩

/-- Pydantic construction of `VpcConfig`: the source declares no field
constraint and no model validator, so construction from typed values always
succeeds. -/
def VpcConfig.construct (cidr : String) (max_azs reserved_azs nat_gateways : Int)
    (automatic_subnet_creation : Bool) : Except ValidationError VpcConfig :=
  .ok ⟨cidr, max_azs, reserved_azs, nat_gateways, automatic_subnet_creation⟩

/-- Pydantic construction of `FrontendConfig`: only the `pattern=`
constraint on `certificate_arn`. -/
def FrontendConfig.construct (domain_name certificate_arn certificate_provider : String) :
    Except ValidationError FrontendConfig :=
  if matchArn "acm" "certificate" certificate_arn = false then
    .error (.fieldConstraint "certificate_arn")
  else
    .ok ⟨domain_name, certificate_arn, certificate_provider⟩

/-- Pydantic construction of `CICDFronendConfig`: only the `pattern=`
constraint on `github_connection_arn`. -/
def CICDFronendConfig.construct
    (github_connection_arn github_owner github_frontend_repo github_frontend_branch : String) :
    Except ValidationError CICDFronendConfig :=
  if matchArn "codeconnections" "connection" github_connection_arn = false then
    .error (.fieldConstraint "github_connection_arn")
  else
    .ok ⟨github_connection_arn, github_owner, github_frontend_repo, github_frontend_branch⟩

/-- Pydantic construction of `CICDBackendConfig`: only the `pattern=`
constraint on `github_connection_arn`. -/
def CICDBackendConfig.construct
    (github_connection_arn github_owner github_backend_repo github_backend_branch : String) :
    Except ValidationError CICDBackendConfig :=
  if matchArn "codeconnections" "connection" github_connection_arn = false then
    .error (.fieldConstraint "github_connection_arn")
  else
    .ok ⟨github_connection_arn, github_owner, github_backend_repo, github_backend_branch⟩

/-! ## The YAML environment file and the loader (`cdk/config/loader.py`)

`ConfigLoader.create_config` reads `environments/{env_name}.yaml`, then
builds each sub-config by keyword-expanding the file's section
(`VpcConfig(**env_config['vpc'])`, ...): keys present in the section are
passed, absent keys take the schema default.  Each section is embedded as a
record of `Option` fields (`some v` = key present with value `v`). -/

/-- The `aws:` section of an environment file. -/
structure AwsSection where
  account : Option String := none
  region : Option String := none

/-- The `vpc:` section of an environment file. -/
structure VpcSection where
  cidr : Option String := none
  max_azs : Option Int := none
  reserved_azs : Option Int := none
  nat_gateways : Option Int := none
  automatic_subnet_creation : Option Bool := none

/-- The `database:` section of an environment file. -/
structure DatabaseSection where
  snapshot_identifier : Option (Option String) := none
  backup_retention : Option Int := none
  instance_reader : Option Bool := none
  serverless_v2_min_capacity : Option ℚ := none
  serverless_v2_max_capacity : Option ℚ := none
  master_username : Option String := none

/-- The `backend:` section of an environment file. -/
structure BackendSection where
  task_cpu : Option String := none
  task_memory : Option String := none
  desired_count : Option Int := none
  certificate_arn : Option String := none
  container_env_vars : Option (List (String × String)) := none
  auto_scaling_min_capacity : Option Int := none
  auto_scaling_max_capacity : Option Int := none
  ecr_repository_name : Option String := none
  ecr_image_tag : Option String := none

/-- The `frontend:` section of an environment file. -/
structure FrontendSection where
  domain_name : Option String := none
  certificate_arn : Option String := none
  certificate_provider : Option String := none

/-- The `cicd_fronend:` section of an environment file (source spelling). -/
structure CICDFronendSection where
  github_connection_arn : Option String := none
  github_owner : Option String := none
  github_frontend_repo : Option String := none
  github_frontend_branch : Option String := none

/-- The `cicd_backend:` section of an environment file. -/
structure CICDBackendSection where
  github_connection_arn : Option String := none
  github_owner : Option String := none
  github_backend_repo : Option String := none
  github_backend_branch : Option String := none

/-- The `dns:` section of an environment file. -/
structure DnsSection where
  hosted_zone_id : Option String := none
  zone_name : Option String := none
  frontend_domain_name : Option String := none
  backend_domain_name : Option String := none

/-- A parsed environment file with its eight required top-level keys. -/
structure EnvFile where
  aws : AwsSection
  vpc : VpcSection
  database : DatabaseSection
  backend : BackendSection
  frontend : FrontendSection
  cicd_fronend : CICDFronendSection
  cicd_backend : CICDBackendSection
  dns : DnsSection

/-- Default `certificate_arn` of `BackendConfig`. -/
def backendDefaultCertArn : String :=
  "arn:aws:acm:eu-west-1:532673134317:certificate/905d0d16-87e8-4e89-a88c-b6053f472e81"

/-- Default `certificate_arn` of `FrontendConfig`. -/
def frontendDefaultCertArn : String :=
  "arn:aws:acm:us-east-1:532673134317:certificate/0755fa69-6f18-451a-8987-d98c395089b9"

/-- Default `github_connection_arn` of both CI/CD configs. -/
def defaultConnectionArn : String :=
  "arn:aws:codeconnections:eu-west-1:532673134317:connection/2a30a395-8d38-43ab-827b-f39a83c9986a"

/-- The `AwsConfig(**section)`: both fields are required (no default); the
region string must coerce into the `AwsRegion` enum. -/
def AwsConfig.fromSection (s : AwsSection) : Except ValidationError AwsConfig :=
  match s.account with
  | none => .error (.fieldConstraint "account")
  | some acct =>
    match s.region with
    | none => .error (.fieldConstraint "region")
    | some r =>
      match parseAwsRegion r with
      | none => .error (.fieldConstraint "region")
      | some reg => .ok ⟨acct, reg⟩

/-- The `VpcConfig(**section)` with schema defaults for absent keys. -/
def VpcConfig.fromSection (s : VpcSection) : Except ValidationError VpcConfig :=
  VpcConfig.construct (s.cidr.getD "10.0.0.0/16") (s.max_azs.getD 3)
    (s.reserved_azs.getD 3) (s.nat_gateways.getD 1)
    (s.automatic_subnet_creation.getD true)

/-- The `DatabaseConfig(**section)` with schema defaults for absent keys. -/
def DatabaseConfig.fromSection (s : DatabaseSection) : Except ValidationError DatabaseConfig :=
  DatabaseConfig.construct (s.snapshot_identifier.getD none)
    (s.backup_retention.getD 2) (s.instance_reader.getD false)
    (s.serverless_v2_min_capacity.getD (mkRat 1 2))
    (s.serverless_v2_max_capacity.getD 2)
    (s.master_username.getD "postgres")

/-- The `BackendConfig(**section)` with schema defaults for absent keys. -/
def BackendConfig.fromSection (s : BackendSection) : Except ValidationError BackendConfig :=
  BackendConfig.construct (s.task_cpu.getD "500m") (s.task_memory.getD "512Mi")
    (s.desired_count.getD 1) (s.certificate_arn.getD backendDefaultCertArn)
    (s.container_env_vars.getD []) (s.auto_scaling_min_capacity.getD 1)
    (s.auto_scaling_max_capacity.getD 5)
    (s.ecr_repository_name.getD "services/ecs/fastapi_app")
    (s.ecr_image_tag.getD "lastest")

/-- The `FrontendConfig(**section)` with schema defaults for absent keys. -/
def FrontendConfig.fromSection (s : FrontendSection) : Except ValidationError FrontendConfig :=
  FrontendConfig.construct (s.domain_name.getD "dev-frontend.piercuta.com")
    (s.certificate_arn.getD frontendDefaultCertArn)
    (s.certificate_provider.getD "acm")

/-- The `CICDFronendConfig(**section)` with schema defaults for absent keys. -/
def CICDFronendConfig.fromSection (s : CICDFronendSection) :
    Except ValidationError CICDFronendConfig :=
  CICDFronendConfig.construct (s.github_connection_arn.getD defaultConnectionArn)
    (s.github_owner.getD "Piercuta")
    (s.github_frontend_repo.getD "full-stack-fastapi-front")
    (s.github_frontend_branch.getD "dev")

/-- The `CICDBackendConfig(**section)` with schema defaults for absent keys. -/
def CICDBackendConfig.fromSection (s : CICDBackendSection) :
    Except ValidationError CICDBackendConfig :=
  CICDBackendConfig.construct (s.github_connection_arn.getD defaultConnectionArn)
    (s.github_owner.getD "Piercuta")
    (s.github_backend_repo.getD "full-stack-fastapi-backend")
    (s.github_backend_branch.getD "dev")

/-- The `DnsConfig(**section)` with schema defaults for absent keys; no
constraint can fail. -/
def DnsConfig.fromSection (s : DnsSection) : Except ValidationError DnsConfig :=
  .ok ⟨s.hosted_zone_id.getD "Z0068506UV3AK4JBKP59",
    s.zone_name.getD "piercuta.com",
    s.frontend_domain_name.getD "dev-frontend.piercuta.com",
    s.backend_domain_name.getD "dev-backend.piercuta.com"⟩

/-- Failure of `ConfigLoader.create_config`: either the environment file is
missing (`FileNotFoundError` from `open`) or a pydantic validation failed. -/
inductive LoadError where
  | fileNotFound
  | validation (e : ValidationError)
deriving DecidableEq

/-- The `ConfigLoader.create_config`.  The filesystem is the explicit map
`fs : String → Option EnvFile` from environment name to the parsed content
of `environments/{env}.yaml`.  The file is read first; each sub-config is
then built in source order; finally `InfrastructureConfig(**config)`
coerces `env_name` into the enum and assembles the aggregate. -/
def create_config (fs : String → Option EnvFile) (env_name project_name : String) :
    Except LoadError InfrastructureConfig :=
  match fs env_name with
  | none => .error .fileNotFound
  | some file =>
    match AwsConfig.fromSection file.aws with
    | .error e => .error (.validation e)
    | .ok aws =>
      match VpcConfig.fromSection file.vpc with
      | .error e => .error (.validation e)
      | .ok vpc =>
        match DatabaseConfig.fromSection file.database with
        | .error e => .error (.validation e)
        | .ok database =>
          match BackendConfig.fromSection file.backend with
          | .error e => .error (.validation e)
          | .ok backend =>
            match FrontendConfig.fromSection file.frontend with
            | .error e => .error (.validation e)
            | .ok frontend =>
              match CICDFronendConfig.fromSection file.cicd_fronend with
              | .error e => .error (.validation e)
              | .ok cicd_fronend =>
                match CICDBackendConfig.fromSection file.cicd_backend with
                | .error e => .error (.validation e)
                | .ok cicd_backend =>
                  match DnsConfig.fromSection file.dns with
                  | .error e => .error (.validation e)
                  | .ok dns =>
                    match parseEnvironmentName env_name with
                    | none => .error (.validation (.fieldConstraint "env_name"))
                    | some env =>
                      .ok ⟨⟨env, project_name⟩, aws, vpc, database, backend,
                        frontend, cicd_fronend, cicd_backend, dns⟩

/-! ## Python attribute semantics for `task_cpu_int` / `task_memory_int`

`BackendConfig.task_cpu_int` returns `self.task_cpu.value`, but `task_cpu`
is a plain `str` (default `"500m"`), and Python `str` objects have no
`value` attribute: the lookup raises `AttributeError` for every string. -/

/-- A Python `AttributeError`. -/
inductive PyAttrError where
  | attributeError
deriving DecidableEq

/-- Embedding of Python attribute lookup `s.value` on a `str` object `s`:
`str` defines no attribute named `value`, so the lookup raises
`AttributeError` whatever the string is. -/
def strValueAttr (_ : String) : Except PyAttrError Int :=
  .error .attributeError

/-- The `BackendConfig.task_cpu_int` property: `self.task_cpu.value`. -/
def BackendConfig.task_cpu_int (c : BackendConfig) : Except PyAttrError Int :=
  strValueAttr c.task_cpu

/-- The `BackendConfig.task_memory_int` property: `self.task_memory.value`. -/
def BackendConfig.task_memory_int (c : BackendConfig) : Except PyAttrError Int :=
  strValueAttr c.task_memory

theorem dropLit_eq_some (lit : List Char) : ∀ s r : List Char,
    dropLit lit s = some r ↔ s = lit ++ r := by
  induction lit with
  | nil => intro s r; simp [dropLit]
  | cons l ls ih =>
    intro s r
    cases s with
    | nil => simp [dropLit]
    | cons c cs =>
      simp only [dropLit, List.cons_append, List.cons.injEq]
      by_cases h : c = l
      · simp [h, ih]
      · simp [h]

theorem dropDigits_eq_some (n : Nat) : ∀ s r : List Char,
    dropDigits n s = some r ↔
      ∃ d : List Char, s = d ++ r ∧ d.length = n ∧ ∀ c ∈ d, c.isDigit = true := by
  induction n with
  | zero =>
    intro s r
    simp only [dropDigits, Option.some.injEq, List.length_eq_zero]
    constructor
    · rintro rfl; exact ⟨[], rfl, rfl, by simp⟩
    · rintro ⟨d, hd, rfl, -⟩; simpa using hd
  | succ n ih =>
    intro s r
    cases s with
    | nil =>
      simp only [dropDigits]
      constructor
      · rintro ⟨⟩
      · rintro ⟨d, hd, hl, -⟩
        cases d with
        | nil => simp at hl
        | cons e es => simp at hd
    | cons c cs =>
      simp only [dropDigits]
      by_cases h : c.isDigit
      · rw [if_pos h, ih]
        constructor
        · rintro ⟨d, hd, hl, hall⟩
          exact ⟨c :: d, by simp [hd], by simp [hl], by
            intro x hx
            rcases List.mem_cons.mp hx with rfl | hx
            · exact h
            · exact hall x hx⟩
        · rintro ⟨d, hd, hl, hall⟩
          cases d with
          | nil => simp at hl
          | cons e es =>
            obtain ⟨rfl, hcs⟩ : c = e ∧ cs = es ++ r := by simpa using hd
            exact ⟨es, hcs, by simpa using hl, fun x hx => hall x (List.mem_cons_of_mem _ hx)⟩
      · rw [if_neg h]
        constructor
        · rintro ⟨⟩
        · rintro ⟨d, hd, hl, hall⟩
          cases d with
          | nil => simp at hl
          | cons e es =>
            obtain ⟨rfl, -⟩ : c = e ∧ cs = es ++ r := by simpa using hd
            exact absurd (hall c (by simp)) h

theorem dropClass1_eq_some (p : Char → Bool) (s r : List Char)
    (h : dropClass1 p s = some r) :
    ∃ t : List Char, s = t ++ r ∧ t ≠ [] ∧ ∀ c ∈ t, p c = true := by
  cases s with
  | nil => exact absurd h (by simp [dropClass1])
  | cons c cs =>
    simp only [dropClass1] at h
    by_cases hc : p c
    · rw [if_pos hc, Option.some.injEq] at h
      refine ⟨c :: cs.takeWhile p, ?_, by simp, ?_⟩
      · simp [← h, List.takeWhile_append_dropWhile]
      · intro x hx
        rcases List.mem_cons.mp hx with rfl | hx
        · exact hc
        · exact List.mem_takeWhile_imp hx
    · rw [if_neg hc] at h; exact absurd h (by simp)

theorem dropClass1_append (p : Char → Bool) (t r : List Char) (ht : t ≠ [])
    (hall : ∀ c ∈ t, p c = true) (hr : ∀ c ∈ r.head?, p c = false) :
    dropClass1 p (t ++ r) = some r := by
  cases t with
  | nil => exact absurd rfl ht
  | cons c cs =>
    have hc : p c = true := hall c (by simp)
    simp only [List.cons_append, dropClass1, if_pos hc, Option.some.injEq]
    rw [List.dropWhile_append]
    have hcs : cs.dropWhile p = [] :=
      List.dropWhile_eq_nil_iff.mpr fun x hx => hall x (List.mem_cons_of_mem _ hx)
    simp only [hcs, List.isEmpty_nil, if_pos rfl]
    cases r with
    | nil => rfl
    | cons a as =>
      have : p a = false := hr a (by simp)
      simp [List.dropWhile_cons, this]

theorem matchArn_iff (provider resource s : String) :
    matchArn provider resource s = true ↔ ArnShape provider resource s := by
  rw [matchArn, decide_eq_true_iff]
  constructor
  · intro h
    obtain ⟨r5, h', h6⟩ := Option.bind_eq_some.mp h
    obtain ⟨r4, h', h5⟩ := Option.bind_eq_some.mp h'
    obtain ⟨r3, h', h4⟩ := Option.bind_eq_some.mp h'
    obtain ⟨r2, h', h3⟩ := Option.bind_eq_some.mp h'
    obtain ⟨r1, h1, h2⟩ := Option.bind_eq_some.mp h'
    obtain ⟨region, hr1, hrne, hrall⟩ := dropClass1_eq_some _ _ _ h2
    obtain ⟨res, hr5, hresne, hresall⟩ := dropClass1_eq_some _ _ _ h6
    rw [dropLit_eq_some] at h1 h3 h5
    obtain ⟨acct, hr3, hlen, hdig⟩ := (dropDigits_eq_some 12 r3 r4).mp h4
    refine ⟨region, acct, res, ?_, hrne, hrall, hlen, hdig, hresne, hresall⟩
    rw [h1, hr1, h3, hr3, h5, hr5]
    simp [List.append_assoc]
  · rintro ⟨region, acct, res, hs, hne, hreg, hlen, hdig, hrne, hres⟩
    have e1 : dropLit ("arn:aws:" ++ provider ++ ":").data s.data
        = some (region ++ ':' :: (acct ++ ((':' :: (resource ++ "/").data) ++ res))) := by
      rw [dropLit_eq_some, hs]
      simp [List.append_assoc]
    have e2 : dropClass1 isRegionChar
          (region ++ ':' :: (acct ++ ((':' :: (resource ++ "/").data) ++ res)))
        = some (':' :: (acct ++ ((':' :: (resource ++ "/").data) ++ res))) := by
      refine dropClass1_append _ _ _ hne hreg ?_
      intro c hc
      obtain rfl : ':' = c := by simpa using hc
      decide
    have e3 : dropLit [':'] (':' :: (acct ++ ((':' :: (resource ++ "/").data) ++ res)))
        = some (acct ++ ((':' :: (resource ++ "/").data) ++ res)) := by
      rw [dropLit_eq_some]; rfl
    have e4 : dropDigits 12 (acct ++ ((':' :: (resource ++ "/").data) ++ res))
        = some ((':' :: (resource ++ "/").data) ++ res) :=
      (dropDigits_eq_some 12 _ _).mpr ⟨acct, rfl, hlen, hdig⟩
    have e5 : dropLit (':' :: (resource ++ "/").data)
          ((':' :: (resource ++ "/").data) ++ res) = some res := by
      rw [dropLit_eq_some]
    have e6 : dropClass1 isResourceChar res = some [] := by
      have h0 := dropClass1_append isResourceChar res [] hrne hres (by simp)
      simpa using h0
    rw [e1, Option.some_bind, e2, Option.some_bind, e3, Option.some_bind,
      e4, Option.some_bind, e5, Option.some_bind, e6]

/-! ## A concrete aggregate used by the example-based claims -/

/-- A concrete `InfrastructureConfig` with project `"acme"` and environment
`"dev"`; every sub-config holds its schema defaults, and the two required
`AwsConfig` fields hold arbitrary concrete values. -/
def sampleAcmeDev : InfrastructureConfig :=
  { env_name := .dev
    project_name := "acme"
    aws := ⟨"532673134317", .EU_WEST_1⟩
    vpc := ⟨"10.0.0.0/16", 3, 3, 1, true⟩
    database := ⟨none, 2, false, mkRat 1 2, 2, "postgres"⟩
    backend := ⟨"500m", "512Mi", 1, backendDefaultCertArn, [], 1, 5,
      "services/ecs/fastapi_app", "lastest"⟩
    frontend := ⟨"dev-frontend.piercuta.com", frontendDefaultCertArn, "acm"⟩
    cicd_fronend := ⟨defaultConnectionArn, "Piercuta", "full-stack-fastapi-front", "dev"⟩
    cicd_backend := ⟨defaultConnectionArn, "Piercuta", "full-stack-fastapi-backend", "dev"⟩
    dns := ⟨"Z0068506UV3AK4JBKP59", "piercuta.com", "dev-frontend.piercuta.com",
      "dev-backend.piercuta.com"⟩ }

/-! ## Inversion lemmas for the section constructors -/

/-- Inversion of a successful `AwsConfig.fromSection`: both required keys
were present and the region string coerced into the enum. -/
theorem aws_fromSection_ok (s : AwsSection) (c : AwsConfig)
    (h : AwsConfig.fromSection s = .ok c) :
    s.account = some c.account ∧
      ∃ r, s.region = some r ∧ parseAwsRegion r = some c.region := by
  unfold AwsConfig.fromSection at h
  split at h
  · exact absurd h (by simp)
  · split at h
    · exact absurd h (by simp)
    · split at h
      · exact absurd h (by simp)
      · obtain rfl := Except.ok.inj h
        refine ⟨by assumption, ?_, by assumption, by assumption⟩

/-- Inversion of a successful `DatabaseConfig.fromSection`: every field of
the result is the file's value when present, the schema default otherwise. -/
theorem database_fromSection_ok (s : DatabaseSection) (c : DatabaseConfig)
    (h : DatabaseConfig.fromSection s = .ok c) :
    c = ⟨s.snapshot_identifier.getD none, s.backup_retention.getD 2,
      s.instance_reader.getD false, s.serverless_v2_min_capacity.getD (mkRat 1 2),
      s.serverless_v2_max_capacity.getD 2, s.master_username.getD "postgres"⟩ := by
  unfold DatabaseConfig.fromSection DatabaseConfig.construct at h
  split at h
  · exact absurd h (by simp)
  · split at h
    · exact absurd h (by simp)
    · exact (Except.ok.inj h).symm

/-- Inversion of a successful `BackendConfig.fromSection`. -/
theorem backend_fromSection_ok (s : BackendSection) (c : BackendConfig)
    (h : BackendConfig.fromSection s = .ok c) :
    c = ⟨s.task_cpu.getD "500m", s.task_memory.getD "512Mi",
      s.desired_count.getD 1, s.certificate_arn.getD backendDefaultCertArn,
      s.container_env_vars.getD [], s.auto_scaling_min_capacity.getD 1,
      s.auto_scaling_max_capacity.getD 5,
      s.ecr_repository_name.getD "services/ecs/fastapi_app",
      s.ecr_image_tag.getD "lastest"⟩ := by
  unfold BackendConfig.fromSection BackendConfig.construct at h
  split at h
  · exact absurd h (by simp)
  · split at h
    · exact absurd h (by simp)
    · split at h
      · exact absurd h (by simp)
      · exact (Except.ok.inj h).symm

/-- Inversion of a successful `FrontendConfig.fromSection`. -/
theorem frontend_fromSection_ok (s : FrontendSection) (c : FrontendConfig)
    (h : FrontendConfig.fromSection s = .ok c) :
    c = ⟨s.domain_name.getD "dev-frontend.piercuta.com",
      s.certificate_arn.getD frontendDefaultCertArn,
      s.certificate_provider.getD "acm"⟩ := by
  unfold FrontendConfig.fromSection FrontendConfig.construct at h
  split at h
  · exact absurd h (by simp)
  · exact (Except.ok.inj h).symm

/-- Inversion of a successful `CICDFronendConfig.fromSection`. -/
theorem cicdFronend_fromSection_ok (s : CICDFronendSection) (c : CICDFronendConfig)
    (h : CICDFronendConfig.fromSection s = .ok c) :
    c = ⟨s.github_connection_arn.getD defaultConnectionArn,
      s.github_owner.getD "Piercuta",
      s.github_frontend_repo.getD "full-stack-fastapi-front",
      s.github_frontend_branch.getD "dev"⟩ := by
  unfold CICDFronendConfig.fromSection CICDFronendConfig.construct at h
  split at h
  · exact absurd h (by simp)
  · exact (Except.ok.inj h).symm

/-- Inversion of a successful `CICDBackendConfig.fromSection`. -/
theorem cicdBackend_fromSection_ok (s : CICDBackendSection) (c : CICDBackendConfig)
    (h : CICDBackendConfig.fromSection s = .ok c) :
    c = ⟨s.github_connection_arn.getD defaultConnectionArn,
      s.github_owner.getD "Piercuta",
      s.github_backend_repo.getD "full-stack-fastapi-backend",
      s.github_backend_branch.getD "dev"⟩ := by
  unfold CICDBackendConfig.fromSection CICDBackendConfig.construct at h
  split at h
  · exact absurd h (by simp)
  · exact (Except.ok.inj h).symm

/-! ## Claims -/

/-- C1: construction of `DatabaseConfig` fails whenever
`serverless_v2_min_capacity >= serverless_v2_max_capacity` or
`serverless_v2_min_capacity < 0.5`, and succeeds (yielding exactly the
given field values) whenever `serverless_v2_min_capacity >= 0.5` and
`serverless_v2_min_capacity < serverless_v2_max_capacity`; on the
cross-field failure the error is the `validate_capacity` `ValueError`
whose message contains both compared capacity values. -/
theorem databaseConfig_capacity_validation (si : Option String) (br : Int)
    (ir : Bool) (minC maxC : ℚ) (mu : String) :
    (minC ≥ maxC ∨ minC < mkRat 1 2 →
      ∃ e, DatabaseConfig.construct si br ir minC maxC mu = .error e) ∧
    (minC ≥ mkRat 1 2 ∧ minC < maxC →
      DatabaseConfig.construct si br ir minC maxC mu
        = .ok ⟨si, br, ir, minC, maxC, mu⟩) ∧
    (minC ≥ mkRat 1 2 ∧ minC ≥ maxC →
      DatabaseConfig.construct si br ir minC maxC mu
        = .error (.valueError (capacityMsg minC maxC)) ∧
      containsStr (toString minC) (capacityMsg minC maxC) ∧
      containsStr (toString maxC) (capacityMsg minC maxC)) := by
  refine ⟨?_, ?_, ?_⟩
  · intro h
    unfold DatabaseConfig.construct
    by_cases h1 : minC < mkRat 1 2
    · rw [if_pos h1]; exact ⟨_, rfl⟩
    · rw [if_neg h1]
      have h2 : minC ≥ maxC := h.resolve_right h1
      rw [if_pos h2]; exact ⟨_, rfl⟩
  · rintro ⟨h1, h2⟩
    unfold DatabaseConfig.construct
    rw [if_neg (not_lt.mpr h1), if_neg (not_le.mpr h2)]
  · rintro ⟨h1, h2⟩
    unfold DatabaseConfig.construct
    rw [if_neg (not_lt.mpr h1), if_pos h2]
    refine ⟨rfl, ?_, ?_⟩
    · exact ⟨"serverless_v2_min_capacity (",
        ") must be less than serverless_v2_max_capacity (" ++ toString maxC ++ ")",
        by simp [capacityMsg, String.append_assoc]⟩
    · exact ⟨"serverless_v2_min_capacity (" ++ toString minC
          ++ ") must be less than serverless_v2_max_capacity (", ")",
        by simp [capacityMsg, String.append_assoc]⟩

/-- Witness for C1: with the schema defaults (min 0.5, max 2.0)
construction succeeds, and with min = max = 2 it fails with the message
carrying both values. -/
theorem databaseConfig_capacity_validation_witness :
    DatabaseConfig.construct none 2 false (mkRat 1 2) 2 "postgres"
      = .ok ⟨none, 2, false, mkRat 1 2, 2, "postgres"⟩ ∧
    DatabaseConfig.construct none 2 false 2 2 "postgres"
      = .error (.valueError (capacityMsg 2 2)) :=
  ⟨(databaseConfig_capacity_validation none 2 false (mkRat 1 2) 2 "postgres").2.1
      ⟨by decide, by decide⟩,
    ((databaseConfig_capacity_validation none 2 false 2 2 "postgres").2.2
      ⟨by decide, by decide⟩).1⟩

/-- C2: with a `certificate_arn` that passes its pattern (and typed values
for the remaining fields), construction of `BackendConfig` fails whenever
`auto_scaling_min_capacity >= auto_scaling_max_capacity`, succeeds
(yielding exactly the given field values) whenever
`auto_scaling_min_capacity >= 1` and the minimum is below the maximum; on
the cross-field failure the error is the `validate_auto_scaling`
`ValueError` whose message contains both compared capacity values. -/
theorem backendConfig_autoscaling_validation (tc tm : String) (dc : Int)
    (cert : String) (ev : List (String × String)) (minC maxC : Int)
    (repo tag : String) (hcert : matchArn "acm" "certificate" cert = true) :
    (minC ≥ maxC →
      ∃ e, BackendConfig.construct tc tm dc cert ev minC maxC repo tag = .error e) ∧
    (minC ≥ 1 ∧ minC < maxC →
      BackendConfig.construct tc tm dc cert ev minC maxC repo tag
        = .ok ⟨tc, tm, dc, cert, ev, minC, maxC, repo, tag⟩) ∧
    (minC ≥ 1 ∧ minC ≥ maxC →
      BackendConfig.construct tc tm dc cert ev minC maxC repo tag
        = .error (.valueError (autoScalingMsg minC maxC)) ∧
      containsStr (toString minC) (autoScalingMsg minC maxC) ∧
      containsStr (toString maxC) (autoScalingMsg minC maxC)) := by
  have hc : ¬ (matchArn "acm" "certificate" cert = false) := by simp [hcert]
  refine ⟨?_, ?_, ?_⟩
  · intro h
    unfold BackendConfig.construct
    rw [if_neg hc]
    by_cases h1 : minC < 1
    · rw [if_pos h1]; exact ⟨_, rfl⟩
    · rw [if_neg h1, if_pos h]; exact ⟨_, rfl⟩
  · rintro ⟨h1, h2⟩
    unfold BackendConfig.construct
    rw [if_neg hc, if_neg (not_lt.mpr h1), if_neg (not_le.mpr h2)]
  · rintro ⟨h1, h2⟩
    unfold BackendConfig.construct
    rw [if_neg hc, if_neg (not_lt.mpr h1), if_pos h2]
    refine ⟨rfl, ?_, ?_⟩
    · exact ⟨"auto_scaling_min_capacity (",
        ") must be less than auto_scaling_max_capacity (" ++ toString maxC ++ ")",
        by simp [autoScalingMsg, String.append_assoc]⟩
    · exact ⟨"auto_scaling_min_capacity (" ++ toString minC
          ++ ") must be less than auto_scaling_max_capacity (", ")",
        by simp [autoScalingMsg, String.append_assoc]⟩

/-- Witness for C2: with the schema defaults (min 1, max 5, default
certificate ARN) construction succeeds, and with min = max = 3 it fails
with the message carrying both values. -/
theorem backendConfig_autoscaling_validation_witness :
    BackendConfig.construct "500m" "512Mi" 1 backendDefaultCertArn [] 1 5
      "services/ecs/fastapi_app" "lastest"
      = .ok ⟨"500m", "512Mi", 1, backendDefaultCertArn, [], 1, 5,
        "services/ecs/fastapi_app", "lastest"⟩ ∧
    BackendConfig.construct "500m" "512Mi" 1 backendDefaultCertArn [] 3 3
      "services/ecs/fastapi_app" "lastest"
      = .error (.valueError (autoScalingMsg 3 3)) :=
  ⟨(backendConfig_autoscaling_validation "500m" "512Mi" 1 backendDefaultCertArn
      [] 1 5 "services/ecs/fastapi_app" "lastest" (by decide)).2.1
      ⟨by norm_num, by norm_num⟩,
    ((backendConfig_autoscaling_validation "500m" "512Mi" 1 backendDefaultCertArn
      [] 3 3 "services/ecs/fastapi_app" "lastest" (by decide)).2.2
      ⟨by norm_num, by norm_num⟩).1⟩

/-- C7: `VpcConfig` performs no validation relating `max_azs` and
`reserved_azs`: for every integer values with `max_azs < reserved_azs`
(and any remaining fields), construction succeeds, yielding exactly the
given field values. -/
theorem vpcConfig_no_az_validation (cidr : String)
    (maxAzs reservedAzs natGw : Int) (auto : Bool)
    (_h : maxAzs < reservedAzs) :
    VpcConfig.construct cidr maxAzs reservedAzs natGw auto
      = .ok ⟨cidr, maxAzs, reservedAzs, natGw, auto⟩ := rfl

/-- Witness for C7: construction succeeds with `max_azs = 1` strictly
below `reserved_azs = 3`. -/
theorem vpcConfig_no_az_validation_witness :
    VpcConfig.construct "10.0.0.0/16" 1 3 1 true = .ok ⟨"10.0.0.0/16", 1, 3, 1, true⟩ :=
  vpcConfig_no_az_validation "10.0.0.0/16" 1 3 1 true (by norm_num)

/-- C8: on every aggregate, the naming helper returns exactly
`project_name ++ "-" ++ env_name ++ "-" ++ base`; in particular, on an
aggregate with project `"acme"` and environment dev it maps
`"network-stack"` to `"acme-dev-network-stack"`. -/
theorem infrastructureConfig_prefixed :
    (∀ (c : InfrastructureConfig) (base : String),
      BaseConfig.prefixed c.toBaseConfig base
        = c.project_name ++ "-" ++ EnvironmentName.value c.env_name ++ "-" ++ base) ∧
    BaseConfig.prefixed sampleAcmeDev.toBaseConfig "network-stack"
      = "acme-dev-network-stack" :=
  ⟨fun _ _ => rfl, rfl⟩

/-- C9: on every aggregate, the tags accessor returns exactly the
three-entry mapping EnvName/ProjectName/ManagedBy; with project `"acme"`
and environment dev it returns exactly
`[("EnvName", "dev"), ("ProjectName", "acme"), ("ManagedBy", "CDK")]`. -/
theorem infrastructureConfig_tags :
    (∀ c : InfrastructureConfig,
      BaseConfig.tags c.toBaseConfig
        = [("EnvName", EnvironmentName.value c.env_name),
           ("ProjectName", c.project_name), ("ManagedBy", "CDK")]) ∧
    BaseConfig.tags sampleAcmeDev.toBaseConfig
      = [("EnvName", "dev"), ("ProjectName", "acme"), ("ManagedBy", "CDK")] :=
  ⟨fun _ => rfl, rfl⟩

/-- C10: for every `BackendConfig` the `task_cpu_int` and
`task_memory_int` properties raise `AttributeError` (the fields are plain
strings with no `value` attribute), and the default-constructed backend
config (empty file section) indeed has `task_cpu = "500m"` and
`task_memory = "512Mi"`. -/
theorem backendConfig_task_int_accessors_raise :
    (∀ c : BackendConfig,
      BackendConfig.task_cpu_int c = .error .attributeError ∧
      BackendConfig.task_memory_int c = .error .attributeError) ∧
    BackendConfig.fromSection {} = .ok ⟨"500m", "512Mi", 1, backendDefaultCertArn,
      [], 1, 5, "services/ecs/fastapi_app", "lastest"⟩ :=
  ⟨fun _ => ⟨rfl, rfl⟩, rfl⟩

/-- Inversion of `VpcConfig.fromSection` (it always succeeds): every field
of the result is the file's value when present, the schema default
otherwise. -/
theorem vpc_fromSection_ok (s : VpcSection) (c : VpcConfig)
    (h : VpcConfig.fromSection s = .ok c) :
    c = ⟨s.cidr.getD "10.0.0.0/16", s.max_azs.getD 3, s.reserved_azs.getD 3,
      s.nat_gateways.getD 1, s.automatic_subnet_creation.getD true⟩ :=
  (Except.ok.inj h).symm

/-- Inversion of `DnsConfig.fromSection` (it always succeeds). -/
theorem dns_fromSection_ok (s : DnsSection) (c : DnsConfig)
    (h : DnsConfig.fromSection s = .ok c) :
    c = ⟨s.hosted_zone_id.getD "Z0068506UV3AK4JBKP59", s.zone_name.getD "piercuta.com",
      s.frontend_domain_name.getD "dev-frontend.piercuta.com",
      s.backend_domain_name.getD "dev-backend.piercuta.com"⟩ :=
  (Except.ok.inj h).symm

/-- C5: for each of the four ARN-bearing fields, construction of the
owning sub-config (all other fields at their schema defaults) succeeds
exactly when the supplied string has the field's required
provider/region/account/resource shape, and fails otherwise. -/
theorem arn_fields_pattern_validation (s : String) :
    ((∃ c, BackendConfig.construct "500m" "512Mi" 1 s [] 1 5
        "services/ecs/fastapi_app" "lastest" = .ok c)
      ↔ ArnShape "acm" "certificate" s) ∧
    ((∃ c, FrontendConfig.construct "dev-frontend.piercuta.com" s "acm" = .ok c)
      ↔ ArnShape "acm" "certificate" s) ∧
    ((∃ c, CICDFronendConfig.construct s "Piercuta" "full-stack-fastapi-front"
        "dev" = .ok c)
      ↔ ArnShape "codeconnections" "connection" s) ∧
    ((∃ c, CICDBackendConfig.construct s "Piercuta" "full-stack-fastapi-backend"
        "dev" = .ok c)
      ↔ ArnShape "codeconnections" "connection" s) := by
  refine ⟨?_, ?_, ?_, ?_⟩
  · rw [← matchArn_iff]
    cases h : matchArn "acm" "certificate" s
    · simp [BackendConfig.construct, h]
    · simp [BackendConfig.construct, h]
  · rw [← matchArn_iff]
    cases h : matchArn "acm" "certificate" s
    · simp [FrontendConfig.construct, h]
    · simp [FrontendConfig.construct, h]
  · rw [← matchArn_iff]
    cases h : matchArn "codeconnections" "connection" s
    · simp [CICDFronendConfig.construct, h]
    · simp [CICDFronendConfig.construct, h]
  · rw [← matchArn_iff]
    cases h : matchArn "codeconnections" "connection" s
    · simp [CICDBackendConfig.construct, h]
    · simp [CICDBackendConfig.construct, h]

/-- C6: when no environment file exists for the environment name, the
loader fails with the file-not-found error, before any sub-config or
aggregate is constructed. -/
theorem create_config_file_not_found (fs : String → Option EnvFile)
    (env proj : String) (h : fs env = none) :
    create_config fs env proj = .error .fileNotFound := by
  unfold create_config
  rw [h]

/-- Witness for C6: the empty filesystem. -/
theorem create_config_file_not_found_witness :
    create_config (fun _ => none) "dev" "piercuta" = .error .fileNotFound :=
  create_config_file_not_found (fun _ => none) "dev" "piercuta" rfl

/-- C4: the loader is deterministic and depends on nothing but the single
file read and its two name inputs: two filesystems agreeing on the
environment file produce identical results for the same `env_name` and
`project_name`. -/
theorem create_config_deterministic (fs1 fs2 : String → Option EnvFile)
    (env proj : String) (h : fs1 env = fs2 env) :
    create_config fs1 env proj = create_config fs2 env proj := by
  unfold create_config
  rw [h]

/-- Witness for C4: two syntactically different filesystems agreeing on
the read file.  -/
theorem create_config_deterministic_witness :
    create_config (fun _ => none) "dev" "piercuta"
      = create_config (fun e => if e = "prod" then some ⟨{}, {}, {}, {}, {}, {}, {}, {}⟩ else none)
          "dev" "piercuta" :=
  create_config_deterministic _ _ "dev" "piercuta" rfl

/-- C3: for every environment file the loader accepts, each sub-config
field of the returned aggregate equals the file's value when the key is
present in the corresponding section and the schema default otherwise
(for `container_env_vars` the file's whole mapping replaces the default —
field-level substitution, not a deep merge); the two required `aws` keys
are present and coerced. -/
theorem create_config_field_substitution (fs : String → Option EnvFile)
    (env proj : String) (file : EnvFile) (cfg : InfrastructureConfig)
    (hfs : fs env = some file) (h : create_config fs env proj = .ok cfg) :
    cfg.project_name = proj ∧
    (file.aws.account = some cfg.aws.account ∧
      ∃ r, file.aws.region = some r ∧ parseAwsRegion r = some cfg.aws.region) ∧
    cfg.vpc = ⟨file.vpc.cidr.getD "10.0.0.0/16", file.vpc.max_azs.getD 3,
      file.vpc.reserved_azs.getD 3, file.vpc.nat_gateways.getD 1,
      file.vpc.automatic_subnet_creation.getD true⟩ ∧
    cfg.database = ⟨file.database.snapshot_identifier.getD none,
      file.database.backup_retention.getD 2, file.database.instance_reader.getD false,
      file.database.serverless_v2_min_capacity.getD (mkRat 1 2),
      file.database.serverless_v2_max_capacity.getD 2,
      file.database.master_username.getD "postgres"⟩ ∧
    cfg.backend = ⟨file.backend.task_cpu.getD "500m", file.backend.task_memory.getD "512Mi",
      file.backend.desired_count.getD 1,
      file.backend.certificate_arn.getD backendDefaultCertArn,
      file.backend.container_env_vars.getD [],
      file.backend.auto_scaling_min_capacity.getD 1,
      file.backend.auto_scaling_max_capacity.getD 5,
      file.backend.ecr_repository_name.getD "services/ecs/fastapi_app",
      file.backend.ecr_image_tag.getD "lastest"⟩ ∧
    cfg.frontend = ⟨file.frontend.domain_name.getD "dev-frontend.piercuta.com",
      file.frontend.certificate_arn.getD frontendDefaultCertArn,
      file.frontend.certificate_provider.getD "acm"⟩ ∧
    cfg.cicd_fronend = ⟨file.cicd_fronend.github_connection_arn.getD defaultConnectionArn,
      file.cicd_fronend.github_owner.getD "Piercuta",
      file.cicd_fronend.github_frontend_repo.getD "full-stack-fastapi-front",
      file.cicd_fronend.github_frontend_branch.getD "dev"⟩ ∧
    cfg.cicd_backend = ⟨file.cicd_backend.github_connection_arn.getD defaultConnectionArn,
      file.cicd_backend.github_owner.getD "Piercuta",
      file.cicd_backend.github_backend_repo.getD "full-stack-fastapi-backend",
      file.cicd_backend.github_backend_branch.getD "dev"⟩ ∧
    cfg.dns = ⟨file.dns.hosted_zone_id.getD "Z0068506UV3AK4JBKP59",
      file.dns.zone_name.getD "piercuta.com",
      file.dns.frontend_domain_name.getD "dev-frontend.piercuta.com",
      file.dns.backend_domain_name.getD "dev-backend.piercuta.com"⟩ := by
  unfold create_config at h
  rw [hfs] at h
  cases ha : AwsConfig.fromSection file.aws with
  | error e => simp only [ha] at h; exact Except.noConfusion h
  | ok aws =>
  simp only [ha] at h
  cases hv : VpcConfig.fromSection file.vpc with
  | error e => simp only [hv] at h; exact Except.noConfusion h
  | ok vpc =>
  simp only [hv] at h
  cases hd : DatabaseConfig.fromSection file.database with
  | error e => simp only [hd] at h; exact Except.noConfusion h
  | ok database =>
  simp only [hd] at h
  cases hb : BackendConfig.fromSection file.backend with
  | error e => simp only [hb] at h; exact Except.noConfusion h
  | ok backend =>
  simp only [hb] at h
  cases hf : FrontendConfig.fromSection file.frontend with
  | error e => simp only [hf] at h; exact Except.noConfusion h
  | ok frontend =>
  simp only [hf] at h
  cases hcf : CICDFronendConfig.fromSection file.cicd_fronend with
  | error e => simp only [hcf] at h; exact Except.noConfusion h
  | ok cicd_fronend =>
  simp only [hcf] at h
  cases hcb : CICDBackendConfig.fromSection file.cicd_backend with
  | error e => simp only [hcb] at h; exact Except.noConfusion h
  | ok cicd_backend =>
  simp only [hcb] at h
  cases hdns : DnsConfig.fromSection file.dns with
  | error e => simp only [hdns] at h; exact Except.noConfusion h
  | ok dns =>
  simp only [hdns] at h
  cases hp : parseEnvironmentName env with
  | none => simp only [hp] at h; exact Except.noConfusion h
  | some envVal =>
  simp only [hp] at h
  obtain rfl := Except.ok.inj h
  refine ⟨rfl, aws_fromSection_ok _ _ ha, ?_, ?_, ?_, ?_, ?_, ?_, ?_⟩
  · exact vpc_fromSection_ok _ _ hv
  · exact database_fromSection_ok _ _ hd
  · exact backend_fromSection_ok _ _ hb
  · exact frontend_fromSection_ok _ _ hf
  · exact cicdFronend_fromSection_ok _ _ hcf
  · exact cicdBackend_fromSection_ok _ _ hcb
  · exact dns_fromSection_ok _ _ hdns

/-- An environment file providing only the two required `aws` keys; every
other key is absent, so every other field takes its schema default. -/
def sampleEnvFile : EnvFile :=
  { aws := { account := some "532673134317", region := some "eu-west-1" }
    vpc := {}
    database := {}
    backend := {}
    frontend := {}
    cicd_fronend := {}
    cicd_backend := {}
    dns := {} }

/-- A filesystem holding exactly `environments/dev.yaml` with the content
of `sampleEnvFile`. -/
def sampleFs : String → Option EnvFile :=
  fun e => if e = "dev" then some sampleEnvFile else none

/-- Witness for C3: on the sample filesystem the loader returns
`sampleAcmeDev`, whose database sub-config carries the file values where
present and the schema defaults otherwise. -/
theorem create_config_field_substitution_witness :
    sampleAcmeDev.database = ⟨sampleEnvFile.database.snapshot_identifier.getD none,
      sampleEnvFile.database.backup_retention.getD 2,
      sampleEnvFile.database.instance_reader.getD false,
      sampleEnvFile.database.serverless_v2_min_capacity.getD (mkRat 1 2),
      sampleEnvFile.database.serverless_v2_max_capacity.getD 2,
      sampleEnvFile.database.master_username.getD "postgres"⟩ :=
  (create_config_field_substitution sampleFs "dev" "acme" sampleEnvFile
    sampleAcmeDev rfl (by rfl)).2.2.2.1
